import Mathlib

/-!
Shallow embedding of the core simulation logic of a single-paddle pong game
(source: src/main.rs).  Machine `f32` arithmetic is modelled over `ℚ`
(all the constants and operations involved — addition, multiplication by
constants, negation, clamping — are exact in this range), and the fallible
`f32::clamp` (which panics when `min > max`) returns an `Option`.
Definitions are translated from the source; theorems check the
specification's claims against them.
-/

/-- A two-dimensional vector, modelling `bevy::math::Vec2` over `ℚ`. -/
structure Vec2 where
  x : ℚ
  y : ℚ
deriving DecidableEq, Repr

/-- Scalar multiplication of a `Vec2`, modelling `velocity.0 *= factor`. -/
def Vec2.scale (c : ℚ) (v : Vec2) : Vec2 :=
  ⟨c * v.x, c * v.y⟩

/-- Entity identities are opaque ids. -/
abbrev Entity := Nat

/-- The `GameArea` resource (src/main.rs lines 11-15). -/
structure GameArea where
  width : ℚ
  height : ℚ
deriving DecidableEq, Repr

/-- `setup_game_area` (src/main.rs lines 50-62): derives the game area from
the primary window's dimensions by subtracting `padding * 2.0` with
`padding = 20.0` from each dimension. -/
def setup_game_area (windowWidth windowHeight : ℚ) : GameArea :=
  let padding : ℚ := 20
  let game_width := windowWidth - padding * 2
  let game_height := windowHeight - padding * 2
  { width := game_width, height := game_height }

/-- Rust's `f32::clamp(self, min, max)`: asserts `min <= max` (panicking
otherwise, modelled as `none`), then returns `min` if `self < min`,
`max` if `self > max`, and `self` otherwise. -/
def rustClamp (x lo hi : ℚ) : Option ℚ :=
  if lo ≤ hi then some (if x < lo then lo else if hi < x then hi else x) else none

/-- `move_paddle` (src/main.rs lines 218-236) for one paddle: from the
Up/Down pressed flags, the tick delta `dt`, the paddle's current vertical
position `y` and the game-area `height`, compute the paddle's new vertical
position.  `direction` starts at `0.`, gains `+1.` if Up is pressed and
`-1.` if Down is pressed; the new position is
`(y + direction * dt * 300).clamp(-max_y, max_y)` with
`max_y = height / 2.0 - 30.0`. -/
def move_paddle (up down : Bool) (dt y height : ℚ) : Option ℚ :=
  let direction : ℚ := (if up then 1 else 0) + (if down then -1 else 0)
  let new_y := y + direction * dt * 300
  let max_y := height / 2 - 30
  rustClamp new_y (-max_y) max_y

/-- The body of the collision handler's inner loop (src/main.rs line 245):
`ball_velocity.0.x *= -1.`. -/
def invert_x (v : Vec2) : Vec2 :=
  ⟨-1 * v.x, v.y⟩

/-- `check_collisions` (src/main.rs lines 238-249): drain the tick's
`CollisionStarted` events in order; for each event `(e1, e2)`, if the
ball query succeeds on `e1` AND on `e2` (`ball_query.get(*e1).is_ok() &&
ball_query.get(*e2).is_ok()`), negate the x component of the ball's
linear velocity (`ball_velocity.0.x *= -1.`).  `isBall` is the ball
query's membership test; `v` is the single ball's velocity. -/
def check_collisions (isBall : Entity → Bool) (events : List (Entity × Entity))
    (v : Vec2) : Vec2 :=
  events.foldl
    (fun w e => if isBall e.1 && isBall e.2 then invert_x w else w) v

/-- `ACCELERATION_FACTOR` (src/main.rs line 251). -/
def ACCELERATION_FACTOR : ℚ := 1001 / 1000

/-- One firing of the acceleration scheduler's body (src/main.rs lines
259-263): `velocity.0 *= ACCELERATION_FACTOR`. -/
def accelerateStep (v : Vec2) : Vec2 :=
  Vec2.scale ACCELERATION_FACTOR v

/-- Modelled from the spec: the engine's repeating timer, whose
implementation is not part of this repository (src/main.rs only builds
`Timer::from_seconds(0.1, TimerMode::Repeating)` and calls `tick` and
`just_finished`).  Spec: the timer is "an elapsed-time accumulator and a
fixed period"; it "fires (resets and signals) once per period"; "excess
time beyond one period is retained, not dropped, but only a single
'just finished' signal is surfaced per tick even if multiple periods
elapsed"; it "must accumulate remainder, not reset to zero on
overshoot".  `timerTick period elapsed dt` advances the accumulator by
`dt` and returns the new accumulator together with the
`just_finished` flag. -/
def timerTick (period elapsed dt : ℚ) : ℚ × Bool :=
  let e := elapsed + dt
  if period ≤ e then (e - period * (⌊e / period⌋ : ℤ), true) else (e, false)

/-- `accelerate_ball` (src/main.rs lines 252-264): tick the repeating
0.1-second `AccelerationTimer` by the tick's delta; if it just finished,
multiply the ball's velocity by `ACCELERATION_FACTOR` (once — the guard
is the boolean `just_finished`, not the number of elapsed periods). -/
def accelerate_ball (elapsed dt : ℚ) (v : Vec2) : ℚ × Vec2 :=
  let t := timerTick (1 / 10) elapsed dt
  (t.1, if t.2 then Vec2.scale ACCELERATION_FACTOR v else v)

/-- Rigid-body kinds (the `RigidBody` component of the physics engine). -/
inductive RigidBodyKind where
  | Static
  | Kinematic
  | Dynamic
deriving DecidableEq, Repr

/-- Restitution/friction coefficient combine rules of the physics engine. -/
inductive CoefficientCombine where
  | Average
  | Min
  | Multiply
  | Max
deriving DecidableEq, Repr

/-- The components a spawned ball carries. -/
structure BallBundle where
  position : Vec2
  colliderRadius : ℚ
  linearVelocity : Vec2
  gravityScale : ℚ
  rotationLocked : Bool
  body : RigidBodyKind
  restitutionCoefficient : ℚ
  restitutionCombineRule : CoefficientCombine
  friction : ℚ
deriving DecidableEq, Repr

/-- The `Ball` entity as spawned (src/main.rs lines 92-106 — the
`#[require(...)]` defaults of the `Ball` component — and lines 145-154,
`spawn_ball`, which adds only mesh/material visuals): dynamic rigid body,
restitution coefficient `1.` with `CoefficientCombine::Max`, friction
`0.`, circular collider of radius `10.`, linear velocity `(200., 200.)`,
gravity scale `0.0`, transform at `(0., 0., 0.)`, rotation locked. -/
def ballBundle : BallBundle where
  position := ⟨0, 0⟩
  colliderRadius := 10
  linearVelocity := ⟨200, 200⟩
  gravityScale := 0
  rotationLocked := true
  body := RigidBodyKind.Dynamic
  restitutionCoefficient := 1
  restitutionCombineRule := CoefficientCombine.Max
  friction := 0

example : setup_game_area 800 600 = ⟨760, 560⟩ := by
  simp [setup_game_area]; norm_num
example : move_paddle true false (16/1000) 0 560 = some (24/5) := by
  simp [move_paddle, rustClamp]; norm_num
example : move_paddle true false (1/10) 249 560 = some 250 := by
  simp [move_paddle, rustClamp]; norm_num
example : check_collisions (fun e => e == 0) [(0, 1)] ⟨200, 200⟩ = ⟨200, 200⟩ := by
  simp [check_collisions]
example : accelerateStep ⟨200, 200⟩ = ⟨2002/10, 2002/10⟩ := by
  simp [accelerateStep, Vec2.scale, ACCELERATION_FACTOR]; norm_num

/-! ### Helper lemmas -/

theorem rustClamp_eq_max_min (x lo hi : ℚ) (h : lo ≤ hi) :
    rustClamp x lo hi = some (max lo (min hi x)) := by
  unfold rustClamp
  rw [if_pos h]
  congr 1
  rcases lt_or_le x lo with h1 | h1
  · rw [if_pos h1, min_eq_right (h1.le.trans h), max_eq_left h1.le]
  · rw [if_neg (not_lt.mpr h1)]
    rcases lt_or_le hi x with h2 | h2
    · rw [if_pos h2, min_eq_left h2.le, max_eq_right h]
    · rw [if_neg (not_lt.mpr h2), min_eq_right h2, max_eq_right h1]

theorem rustClamp_mem (x lo hi : ℚ) (h : lo ≤ hi) :
    ∃ z, rustClamp x lo hi = some z ∧ lo ≤ z ∧ z ≤ hi :=
  ⟨max lo (min hi x), rustClamp_eq_max_min x lo hi h, le_max_left _ _,
    max_le h (min_le_left _ _)⟩

/-! ### Claim theorems -/

/-- C4: for every surface size `(W, H)` with `W, H > 40`, `setup_game_area`
derives a playfield of exactly `(W - 40, H - 40)`: it subtracts the fixed
padding of 20 units from each side of each dimension. -/
theorem setup_game_area_spec (W H : ℚ) (hW : 40 < W) (hH : 40 < H) :
    setup_game_area W H = ⟨W - 40, H - 40⟩ := by
  simp only [setup_game_area, GameArea.mk.injEq]
  norm_num

/-- Witness for C4 at the spec's end-to-end scenario `800 × 600`. -/
theorem setup_game_area_spec_witness :
    setup_game_area 800 600 = ⟨(800 : ℚ) - 40, (600 : ℚ) - 40⟩ :=
  setup_game_area_spec 800 600 (by norm_num) (by norm_num)

/-- C2: for every tick delta `dt ≥ 0` and every starting position
`y0 ∈ [-maxY, maxY]` with `maxY = height / 2 - 30`, the paddle position
after one run of `move_paddle` (for any combination of Up/Down pressed
flags) is defined and lies in `[-maxY, maxY]`. -/
theorem move_paddle_stays_clamped (up down : Bool) (dt y0 H : ℚ)
    (hdt : 0 ≤ dt) (h1 : -(H / 2 - 30) ≤ y0) (h2 : y0 ≤ H / 2 - 30) :
    ∃ y, move_paddle up down dt y0 H = some y ∧
      -(H / 2 - 30) ≤ y ∧ y ≤ H / 2 - 30 := by
  have hm : -(H / 2 - 30) ≤ H / 2 - 30 := h1.trans h2
  exact rustClamp_mem _ _ _ hm

/-- Witness for C2: paddle at `y = 249`, Up held, `dt = 0.1`, game-area
height `560` (so `maxY = 250`). -/
theorem move_paddle_stays_clamped_witness :
    ∃ y, move_paddle true false (1 / 10) 249 560 = some y ∧
      -((560 : ℚ) / 2 - 30) ≤ y ∧ y ≤ (560 : ℚ) / 2 - 30 :=
  move_paddle_stays_clamped true false (1 / 10) 249 560 (by norm_num)
    (by norm_num) (by norm_num)

/-- C3: the paddle controller computes `direction = +1` if only Up is
pressed, `-1` if only Down is pressed, `0` if both or neither are
pressed, and sets the new vertical position to
`clamp (y + direction * dt * 300) (-maxY) maxY` with
`maxY = height / 2 - 30` (stated for game areas tall enough that the
clamp's `min ≤ max` precondition holds). -/
theorem move_paddle_direction_formula (up down : Bool) (dt y H : ℚ)
    (h : 60 ≤ H) :
    move_paddle up down dt y H =
      some (max (-(H / 2 - 30)) (min (H / 2 - 30)
        (y + (if up && !down then 1
              else if !up && down then (-1 : ℚ) else 0) * dt * 300))) := by
  have hm : -(H / 2 - 30) ≤ H / 2 - 30 := by linarith
  have hdir : ((if up then (1 : ℚ) else 0) + (if down then -1 else 0)) =
      (if up && !down then 1 else if !up && down then (-1 : ℚ) else 0) := by
    cases up <;> cases down <;> norm_num
  simp only [move_paddle, hdir]
  exact rustClamp_eq_max_min _ _ _ hm

/-- Witness for C3: Up held alone, `dt = 0.1`, `y = 249`, height `560`. -/
theorem move_paddle_direction_formula_witness :
    move_paddle true false (1 / 10) 249 560 =
      some (max (-((560 : ℚ) / 2 - 30)) (min ((560 : ℚ) / 2 - 30)
        (249 + (if true && !false then 1
                else if !true && false then (-1 : ℚ) else 0) * (1 / 10) * 300))) :=
  move_paddle_direction_formula true false (1 / 10) 249 560 (by norm_num)

/-- C10: the clamp inside `move_paddle` has the precondition
`-maxY ≤ maxY`; it holds — and `move_paddle` is total — exactly when the
game-area height is at least 60, while for height `< 60` the computed
`maxY` is negative and the clamp is invoked with `min > max` (a panic in
the source, `none` here). -/
theorem move_paddle_total_iff (up down : Bool) (dt y H : ℚ) :
    (60 ≤ H → (move_paddle up down dt y H).isSome = true) ∧
    (H < 60 → H / 2 - 30 < 0 ∧ move_paddle up down dt y H = none) := by
  constructor
  · intro h
    have hm : -(H / 2 - 30) ≤ H / 2 - 30 := by linarith
    simp only [move_paddle]
    rw [rustClamp_eq_max_min _ _ _ hm]
    rfl
  · intro h
    have hneg : H / 2 - 30 < 0 := by linarith
    refine ⟨hneg, ?_⟩
    simp only [move_paddle, rustClamp]
    rw [if_neg (not_le.mpr (by linarith))]

/-- Witness for C10: height `600` (total) and height `40` (clamp
precondition violated). -/
theorem move_paddle_total_iff_witness :
    (move_paddle true false 1 0 600).isSome = true ∧
    ((40 : ℚ) / 2 - 30 < 0 ∧ move_paddle true false 1 0 40 = none) :=
  ⟨(move_paddle_total_iff true false 1 0 600).1 (by norm_num),
   (move_paddle_total_iff true false 1 0 40).2 (by norm_num)⟩

/-- C8: at startup the Ball entity is spawned at the origin `(0, 0)` with
a circular collider of radius 10, initial linear velocity `(200, 200)`,
gravity scale 0, rotation locked, a dynamic rigid body, restitution
coefficient 1 with the `Max` combine rule, and friction 0. -/
theorem ball_spawn_spec :
    ballBundle.position = ⟨0, 0⟩ ∧ ballBundle.colliderRadius = 10 ∧
    ballBundle.linearVelocity = ⟨200, 200⟩ ∧ ballBundle.gravityScale = 0 ∧
    ballBundle.rotationLocked = true ∧
    ballBundle.body = RigidBodyKind.Dynamic ∧
    ballBundle.restitutionCoefficient = 1 ∧
    ballBundle.restitutionCombineRule = CoefficientCombine.Max ∧
    ballBundle.friction = 0 :=
  ⟨rfl, rfl, rfl, rfl, rfl, rfl, rfl, rfl, rfl⟩

/-- C6: the collision handler's horizontal inversion and the acceleration
scheduler's scalar multiply commute: for every velocity `v`, inverting the
x component then scaling by `ACCELERATION_FACTOR` equals scaling then
inverting. -/
theorem invert_scale_commute (v : Vec2) :
    accelerateStep (invert_x v) = invert_x (accelerateStep v) := by
  cases v
  simp only [accelerateStep, invert_x, Vec2.scale, Vec2.mk.injEq]
  refine ⟨by ring, ?_⟩
  simp

theorem accelerateStep_iterate (k : ℕ) (v : Vec2) :
    accelerateStep^[k] v = Vec2.scale (ACCELERATION_FACTOR ^ k) v := by
  induction k with
  | zero =>
    cases v
    simp [Vec2.scale]
  | succ n ih =>
    cases v with
    | mk x y =>
      rw [Function.iterate_succ_apply', ih]
      simp only [accelerateStep, Vec2.scale, Vec2.mk.injEq]
      constructor <;> ring

theorem sqrt_scale_sq (c a b : ℝ) (hc : 0 ≤ c) :
    Real.sqrt ((c * a) ^ 2 + (c * b) ^ 2) = c * Real.sqrt (a ^ 2 + b ^ 2) := by
  rw [show (c * a) ^ 2 + (c * b) ^ 2 = c ^ 2 * (a ^ 2 + b ^ 2) by ring,
    Real.sqrt_mul (sq_nonneg c), Real.sqrt_sq hc]

/-- C5: each firing of the acceleration scheduler multiplies both
components of the ball's velocity by exactly `1.001 = 1001 / 1000`;
consequently after `k` firings with no intervening flips, the speed
magnitude equals the initial magnitude times `1.001 ^ k`. -/
theorem accelerate_ball_scaling :
    (∀ v : Vec2, accelerateStep v = ⟨1001 / 1000 * v.x, 1001 / 1000 * v.y⟩) ∧
    ∀ (k : ℕ) (v : Vec2),
      Real.sqrt (((accelerateStep^[k] v).x : ℝ) ^ 2 +
          ((accelerateStep^[k] v).y : ℝ) ^ 2) =
        (1001 / 1000 : ℝ) ^ k *
          Real.sqrt ((v.x : ℝ) ^ 2 + (v.y : ℝ) ^ 2) := by
  constructor
  · intro v
    rfl
  · intro k v
    cases v with
    | mk x y =>
      rw [accelerateStep_iterate]
      simp only [Vec2.scale]
      have hx : ((ACCELERATION_FACTOR ^ k * x : ℚ) : ℝ) =
          (1001 / 1000 : ℝ) ^ k * (x : ℝ) := by
        push_cast [ACCELERATION_FACTOR]
        norm_num
      have hy : ((ACCELERATION_FACTOR ^ k * y : ℚ) : ℝ) =
          (1001 / 1000 : ℝ) ^ k * (y : ℝ) := by
        push_cast [ACCELERATION_FACTOR]
        norm_num
      rw [hx, hy, sqrt_scale_sq _ _ _ (by positivity)]

theorem check_collisions_cons (isBall : Entity → Bool) (e : Entity × Entity)
    (es : List (Entity × Entity)) (v : Vec2) :
    check_collisions isBall (e :: es) v =
      check_collisions isBall es
        (if isBall e.1 && isBall e.2 then invert_x v else v) :=
  rfl

theorem check_collisions_preserves_nonzero (isBall : Entity → Bool) :
    ∀ (events : List (Entity × Entity)) (v : Vec2), v.x ≠ 0 → v.y ≠ 0 →
      (check_collisions isBall events v).x ≠ 0 ∧
      (check_collisions isBall events v).y ≠ 0 := by
  intro events
  induction events with
  | nil => exact fun v hx hy => ⟨hx, hy⟩
  | cons e es ih =>
    intro v hx hy
    rw [check_collisions_cons]
    by_cases hc : (isBall e.1 && isBall e.2) = true
    · rw [if_pos hc]
      exact ih (invert_x v) (by simpa [invert_x] using hx) (by simpa [invert_x] using hy)
    · rw [if_neg hc]
      exact ih v hx hy

/-- C9: no game-logic operation maps a nonzero velocity component to
zero: the collision handler only negates the x component and the
scheduler multiplies by the positive constant `1.001`, both of which
preserve nonzeroness of each component. -/
theorem game_logic_preserves_nonzero (isBall : Entity → Bool)
    (events : List (Entity × Entity)) (v : Vec2)
    (hx : v.x ≠ 0) (hy : v.y ≠ 0) :
    ((check_collisions isBall events v).x ≠ 0 ∧
      (check_collisions isBall events v).y ≠ 0) ∧
    ((accelerateStep v).x ≠ 0 ∧ (accelerateStep v).y ≠ 0) := by
  refine ⟨check_collisions_preserves_nonzero isBall events v hx hy, ?_, ?_⟩
  · exact mul_ne_zero (by norm_num [ACCELERATION_FACTOR]) hx
  · exact mul_ne_zero (by norm_num [ACCELERATION_FACTOR]) hy

/-- Witness for C9: ball velocity `(200, 200)`, one ball-vs-border
collision event. -/
theorem game_logic_preserves_nonzero_witness :
    ((check_collisions (fun e => e == 0) [(0, 1)] ⟨200, 200⟩).x ≠ 0 ∧
      (check_collisions (fun e => e == 0) [(0, 1)] ⟨200, 200⟩).y ≠ 0) ∧
    ((accelerateStep ⟨200, 200⟩).x ≠ 0 ∧ (accelerateStep ⟨200, 200⟩).y ≠ 0) :=
  game_logic_preserves_nonzero (fun e => e == 0) [(0, 1)] ⟨200, 200⟩
    (by norm_num) (by norm_num)

/-- With exactly one ball (the query matches one entity id) and no
self-collision events, `check_collisions` can never fire: the guard
requires BOTH named entities to be the ball. -/
theorem check_collisions_single_ball (b : Entity) :
    ∀ (events : List (Entity × Entity)) (v : Vec2),
      (∀ p ∈ events, p.1 ≠ p.2) →
      check_collisions (fun e => e == b) events v = v := by
  intro events
  induction events with
  | nil => exact fun v _ => rfl
  | cons e es ih =>
    intro v h
    rw [check_collisions_cons]
    have hne : e.1 ≠ e.2 := h e (List.mem_cons_self e es)
    have hc : ¬((e.1 == b) && (e.2 == b)) = true := by
      simp only [Bool.and_eq_true, beq_iff_eq]
      rintro ⟨h1, h2⟩
      exact hne (h1.trans h2.symm)
    rw [if_neg hc]
    exact ih v fun p hp => h p (List.mem_cons_of_mem e hp)

/-- C1 (refuted by the code): a single collision-start event naming the
Ball and a non-ball entity leaves the ball's velocity unchanged — the
guard on src/main.rs line 243 is `ball_query.get(*e1).is_ok() &&
ball_query.get(*e2).is_ok()`, so the handler fires only when BOTH named
entities are the Ball, never when merely one is. -/
theorem check_collisions_requires_both :
    check_collisions (fun e => e == 0) [(0, 1)] ⟨200, 200⟩ = ⟨200, 200⟩ ∧
    check_collisions (fun e => e == 0) [(0, 1)] ⟨200, 200⟩ ≠ ⟨-200, 200⟩ := by
  constructor
  · rfl
  · intro h
    have hx : (200 : ℚ) = -200 := congrArg Vec2.x h
    norm_num at hx

theorem timerTick_fin {period elapsed dt : ℚ} (h : period ≤ elapsed + dt) :
    timerTick period elapsed dt =
      ((elapsed + dt) - period * ((⌊(elapsed + dt) / period⌋ : ℤ) : ℚ), true) := by
  simp only [timerTick]
  rw [if_pos h]

theorem timerTick_not {period elapsed dt : ℚ} (h : ¬period ≤ elapsed + dt) :
    timerTick period elapsed dt = (elapsed + dt, false) := by
  simp only [timerTick]
  rw [if_neg h]

/-- C7: in one run of `accelerate_ball`, the ball's velocity is scaled by
`ACCELERATION_FACTOR` at most once, however large the tick delta (the
guard is the boolean `just_finished`), and the timer's elapsed time is
conserved: the tick's end accumulator differs from `elapsed + dt` by a
whole number of periods and stays in `[0, period)` — the remainder is
retained, not reset to zero. -/
theorem accelerate_ball_timer_semantics (elapsed dt : ℚ) (v : Vec2)
    (h0 : 0 ≤ elapsed) (h1 : elapsed < 1 / 10) (h2 : 0 ≤ dt) :
    ((accelerate_ball elapsed dt v).2 = v ∨
      (accelerate_ball elapsed dt v).2 = Vec2.scale ACCELERATION_FACTOR v) ∧
    ∃ n : ℕ, elapsed + dt = 1 / 10 * n + (accelerate_ball elapsed dt v).1 ∧
      0 ≤ (accelerate_ball elapsed dt v).1 ∧
      (accelerate_ball elapsed dt v).1 < 1 / 10 := by
  have hq0 : (0 : ℚ) < 1 / 10 := by norm_num
  by_cases hle : (1 : ℚ) / 10 ≤ elapsed + dt
  · have hunf : accelerate_ball elapsed dt v =
        ((elapsed + dt) - 1 / 10 * ((⌊(elapsed + dt) / (1 / 10)⌋ : ℤ) : ℚ),
          Vec2.scale ACCELERATION_FACTOR v) := by
      simp only [accelerate_ball, timerTick_fin hle]
      simp
    rw [hunf]
    dsimp only
    have hfl0 : 0 ≤ ⌊(elapsed + dt) / (1 / 10)⌋ :=
      Int.floor_nonneg.mpr (by positivity)
    have hcast : (((⌊(elapsed + dt) / (1 / 10)⌋).toNat : ℕ) : ℚ) =
        ((⌊(elapsed + dt) / (1 / 10)⌋ : ℤ) : ℚ) := by
      exact_mod_cast Int.toNat_of_nonneg hfl0
    have b1 := Int.sub_floor_div_mul_nonneg (elapsed + dt) hq0
    have b2 := Int.sub_floor_div_mul_lt (elapsed + dt) hq0
    refine ⟨Or.inr rfl, (⌊(elapsed + dt) / (1 / 10)⌋).toNat, ?_, ?_, ?_⟩
    · rw [hcast]; ring
    · nlinarith [b1]
    · nlinarith [b2]
  · have hunf : accelerate_ball elapsed dt v = (elapsed + dt, v) := by
      simp only [accelerate_ball, timerTick_not hle]
      simp
    rw [hunf]
    dsimp only
    exact ⟨Or.inl rfl, 0, by norm_num, by linarith, not_le.mp hle⟩

/-- Witness for C7: elapsed `0`, a tick delta of `0.35` seconds spanning
three and a half periods. -/
theorem accelerate_ball_timer_semantics_witness :
    ((accelerate_ball 0 (35 / 100) ⟨200, 200⟩).2 = ⟨200, 200⟩ ∨
      (accelerate_ball 0 (35 / 100) ⟨200, 200⟩).2 =
        Vec2.scale ACCELERATION_FACTOR ⟨200, 200⟩) ∧
    ∃ n : ℕ, (0 : ℚ) + 35 / 100 =
        1 / 10 * n + (accelerate_ball 0 (35 / 100) ⟨200, 200⟩).1 ∧
      0 ≤ (accelerate_ball 0 (35 / 100) ⟨200, 200⟩).1 ∧
      (accelerate_ball 0 (35 / 100) ⟨200, 200⟩).1 < 1 / 10 :=
  accelerate_ball_timer_semantics 0 (35 / 100) ⟨200, 200⟩ (by norm_num)
    (by norm_num) (by norm_num)
